import Mathlib

/-!
Shallow embedding of the WebRF homebridge platform plugin (src/index.ts).

The plugin keeps an in-memory array `accessories` of platform accessories,
reconciles it once (on DID_FINISH_LAUNCHING) against the key set of a remote
action mapping fetched over HTTP, and wires each accessory's `On`
characteristic to a handler that posts to the accessory's action URL and
schedules an unconditional reset to `false` after 3000 ms.

We model the platform's externally visible behaviour: the host-sink calls
(`registerPlatformAccessories` / `unregisterPlatformAccessories`), the log
lines, and the contents of the private `accessories` array, as explicit data.
External collaborators (the `hap.uuid.generate` function, the network) are
parameters of the model.
-/

namespace WebRF

/-- Local entity: one platform accessory together with the `context` fields
the plugin sets (`context.action`, `context.actionUrl`). -/
structure Accessory where
  displayName : String
  uuid : String
  action : String
  actionUrl : String
deriving DecidableEq, Repr

/-- Calls this code issues against the homebridge host sink. -/
inductive HostOp where
  | registerAccessories (xs : List Accessory)
  | unregisterAccessories (xs : List Accessory)
deriving DecidableEq, Repr

/-- Log lines, at the two severities the plugin uses. -/
inductive LogEntry where
  | info (s : String)
  | error (s : String)
deriving DecidableEq, Repr

/-- The JavaScript whitespace characters relevant to `String.prototype.trimRight`
(`trimEnd`): it strips trailing whitespace and line terminators.  The argument
`"/"` passed at the call site `config.url.trimRight("/")` is ignored by
JavaScript. -/
def isJsWhitespace (c : Char) : Bool :=
  c == ' ' || c == '\t' || c == '\n' || c == '\r' || c == '\x0b' || c == '\x0c'

/-- JavaScript `String.prototype.trimRight` (alias of `trimEnd`): drop trailing
whitespace.  It takes no argument; any argument given at a call site has no
effect. -/
def jsTrimRight (s : String) : String :=
  ⟨(s.data.reverse.dropWhile isJsWhitespace).reverse⟩

/-- Line 33 of the source: `this.configURL = config.url.trimRight("/") + "/api/v1/"`. -/
def mkConfigURL (url : String) : String :=
  jsTrimRight url ++ "/api/v1/"

/-- lodash `_.difference(xs, ys)`: the values of `xs` (order and multiplicity
preserved) that are not included in `ys`. -/
def lodashDifference (xs ys : List String) : List String :=
  xs.filter (fun x => !(ys.contains x))

/-- The remote mapping `switches.data.data`: a JavaScript object seen as an
association list of `actionId -> displayName`. -/
abbrev SwitchData := List (String × String)

/-- lodash `_.keys`: keys of an object; `_.keys(undefined)` is `[]`, which is
what the source computes when the response body has no `data.data` object. -/
def jsKeys : Option SwitchData → List String
  | none => []
  | some m => m.map Prod.fst

/-- Property read `switchData[action]`, used only on keys taken from
`_.keys(switchData)`, hence always present when the mapping exists. -/
def jsIndex (m : Option SwitchData) (k : String) : String :=
  match m with
  | none => ""
  | some l => (((l.find? (fun p => p.1 == k)).map Prod.snd)).getD ""

/-- The observable effect of running a piece of the plugin: host-sink calls
issued, log lines emitted, and the resulting `accessories` array. -/
structure Effect where
  ops : List HostOp
  logs : List LogEntry
  store : List Accessory
deriving DecidableEq, Repr

/-- `removeAccessory(action)` (source lines 134-145): filter the `accessories`
array by `context.action`; if nothing matches, log an error and return;
otherwise call `unregisterPlatformAccessories` with the matching accessories.
The `accessories` array itself is never modified. -/
def removeAccessory (st : List Accessory) (action : String) : Effect :=
  let accessoryToRemove := st.filter (fun a => a.action == action)
  if accessoryToRemove.length == 0 then
    { ops := []
      logs := [.info ("Removing accessory with action " ++ action),
               .error ("Unable to remove accessory " ++ action ++ "! Does not exist.")]
      store := st }
  else
    { ops := [.unregisterAccessories accessoryToRemove]
      logs := [.info ("Removing accessory with action " ++ action)]
      store := st }

/-- The accessory built by `addAccessory` (source lines 119-132): display name
and uuid come from the remote display name (`hap.uuid.generate(name)`,
modelled by the parameter `gen`), `context.action` is the action key, and
`context.actionUrl = this.configURL + action`. -/
def mkAccessory (gen : String → String) (configURL : String) (name action : String) : Accessory :=
  { displayName := name
    uuid := gen name
    action := action
    actionUrl := configURL ++ action }

/-- `addAccessory(name, action)` (source lines 119-132): build the accessory,
run `configureAccessory` on it (which logs and pushes it onto `accessories`),
then register it with the host sink. -/
def addAccessory (gen : String → String) (configURL : String) (st : List Accessory)
    (name action : String) : Effect :=
  let accessory := mkAccessory gen configURL name action
  { ops := [.registerAccessories [accessory]]
    logs := [.info ("Adding new accessory with name " ++ name),
             .info ("Configuring accessory " ++ name)]
    store := st ++ [accessory] }

/-- Sequential composition of effects: ops and logs accumulate, the store
threads through. -/
def Effect.andThen (e : Effect) (e₂ : Effect) : Effect :=
  { ops := e.ops ++ e₂.ops, logs := e.logs ++ e₂.logs, store := e₂.store }

/-- `switchesToRemove.forEach(action => this.removeAccessory(action))`. -/
def runRemovals (st : List Accessory) (keys : List String) : Effect :=
  keys.foldl (fun e k => e.andThen (removeAccessory e.store k)) { ops := [], logs := [], store := st }

/-- `switchesToAdd.forEach(action => this.addAccessory(switchData[action], action))`. -/
def runAdds (gen : String → String) (configURL : String) (data : Option SwitchData)
    (st : List Accessory) (keys : List String) : Effect :=
  keys.foldl (fun e k => e.andThen (addAccessory gen configURL e.store (jsIndex data k) k))
    { ops := [], logs := [], store := st }

/-- Outcome of `axios.get(this.configURL)`: either the request throws
(transport failure), or it yields a response whose `data.data` field may or
may not be an object of the expected shape. -/
inductive FetchResult where
  | failure
  | success (data : Option SwitchData)
deriving DecidableEq, Repr

/-- `switchesToRemove = _.difference(registeredSwitches, switchActions)`
(source line 61), where `registeredSwitches` maps each stored accessory to
its `context.action`. -/
def switchesToRemove (st : List Accessory) (data : Option SwitchData) : List String :=
  lodashDifference (st.map (fun a => a.action)) (jsKeys data)

/-- `switchesToAdd = _.difference(switchActions, registeredSwitches)`
(source line 62). -/
def switchesToAdd (st : List Accessory) (data : Option SwitchData) : List String :=
  lodashDifference (jsKeys data) (st.map (fun a => a.action))

/-- The DID_FINISH_LAUNCHING handler (source lines 43-77): fetch the remote
action mapping; on a thrown request log an error and return, leaving
everything untouched.  Otherwise diff the keys against the `context.action`
fields of the current `accessories` array with `_.difference`, remove the
stale ones, then add the new ones.  (The `if (switchesToRemove)` /
`if (switchesToAdd)` tests are always truthy in JavaScript — an empty array
is truthy — so both branches always run their `forEach`.) -/
def reconcile (gen : String → String) (configURL : String) (st : List Accessory)
    (fetch : FetchResult) : Effect :=
  match fetch with
  | .failure =>
    { ops := []
      logs := [.info "Cache restored.", .info "Loading switch data",
               .error "Failed to access server!"]
      store := st }
  | .success switchData =>
    let er := runRemovals st (switchesToRemove st switchData)
    let ea := runAdds gen configURL switchData er.store (switchesToAdd st switchData)
    { ops := er.ops ++ ea.ops
      logs := [.info "Cache restored.", .info "Loading switch data",
               .info ("Removing switches: " ++ String.intercalate ", " (switchesToRemove st switchData))]
              ++ er.logs
              ++ [.info ("Adding switches: " ++ String.intercalate ", " (switchesToAdd st switchData))]
              ++ ea.logs
      store := ea.store }

/-! ## Trigger state machine (the `On` SET handler, source lines 92-114) -/

/-- Outcome of the `axios.post(accessory.context.actionUrl)` call: resolves
with `status: "ok"`, resolves with any other body, or rejects (transport
error). -/
inductive InvokeOutcome where
  | ok
  | failed
  | unreachable
deriving DecidableEq, Repr

/-- Atomic steps the SET handler and its timer callback perform. -/
inductive TriggerEvent where
  | logInfo (s : String)
  | logError (s : String)
  | ack
  | scheduleReset (delayMs : Nat)
  | post (url : String)
  | updateValue (isOn : Bool)
deriving DecidableEq, Repr

/-- The SET handler body, in source order: log, `callback()`, schedule the
3000 ms reset, post to the action URL, then branch on the outcome for the
final log line.  No branch writes the characteristic value. -/
def setHandler (acc : Accessory) (outcome : InvokeOutcome) : List TriggerEvent :=
  [.logInfo (acc.displayName ++ " was triggered."),
   .ack,
   .scheduleReset 3000,
   .post acc.actionUrl] ++
  match outcome with
  | .unreachable => [.logError ("Failed to trigger request for " ++ acc.displayName)]
  | .ok => [.logInfo (acc.displayName ++ " triggered successfully!")]
  | .failed => [.logError ("Failed to trigger: " ++ acc.displayName ++ "! Please check server!")]

/-- The `setTimeout` callback (source lines 96-99): log, then
`updateValue(false)` on the `On` characteristic. -/
def resetCallback (acc : Accessory) : List TriggerEvent :=
  [.logInfo (acc.displayName ++ ": updating button value to false."),
   .updateValue false]

/-- The delays of the resets an event list schedules. -/
def resetDelays (evs : List TriggerEvent) : List Nat :=
  evs.filterMap (fun e => match e with | .scheduleReset d => some d | _ => none)

/-- The writes an event list makes to the `On` characteristic. -/
def isOnWrites (evs : List TriggerEvent) : List Bool :=
  evs.filterMap (fun e => match e with | .updateValue b => some b | _ => none)

/-- One full activation as a timed trace of the visible `On` value: the host
sets the characteristic to `true` at time 0 (that is what fires SET), the
handler runs (any characteristic writes it makes happen at time 0), and each
scheduled reset runs the timer callback at its delay. -/
def activate (acc : Accessory) (outcome : InvokeOutcome) : List (Nat × Bool) :=
  (0, true) ::
    (setHandler acc outcome).flatMap (fun e =>
      match e with
      | .scheduleReset d => (isOnWrites (resetCallback acc)).map (fun b => (d, b))
      | .updateValue b => [(0, b)]
      | _ => [])

/-! ## Concrete instances used in closed statements -/

/-- A concrete stand-in for the external `hap.uuid.generate`. -/
def demoGen (s : String) : String := "uuid:" ++ s

/-- A concrete configured URL. -/
def demoCfg : String := mkConfigURL "http://server"

/-- A concrete stored accessory bound to action key "A". -/
def accA : Accessory :=
  { displayName := "Lamp", uuid := "uuid:Lamp", action := "A",
    actionUrl := "http://server/api/v1/A" }

/-- A concrete stored accessory bound to action key "B". -/
def accB : Accessory :=
  { displayName := "Heater", uuid := "uuid:Heater", action := "B",
    actionUrl := "http://server/api/v1/B" }

/-! ## Helper lemmas -/

theorem mem_lodashDifference {k : String} {xs ys : List String} :
    k ∈ lodashDifference xs ys ↔ k ∈ xs ∧ k ∉ ys := by
  simp [lodashDifference]

theorem lodashDifference_nil_right (xs : List String) :
    lodashDifference xs [] = xs := by
  simp [lodashDifference]

theorem lodashDifference_nil_left (ys : List String) :
    lodashDifference [] ys = [] := rfl

theorem removeAccessory_store (st : List Accessory) (k : String) :
    (removeAccessory st k).store = st := by
  simp only [removeAccessory]
  split <;> rfl

theorem removeAccessory_ops_of_match (st : List Accessory) (k : String)
    (h : ∃ a ∈ st, a.action = k) :
    (removeAccessory st k).ops
      = [HostOp.unregisterAccessories (st.filter (fun a => a.action == k))] := by
  obtain ⟨a, ha, hk⟩ := h
  have hmem : a ∈ st.filter (fun a => a.action == k) :=
    List.mem_filter.mpr ⟨ha, by simp [hk]⟩
  have hne : st.filter (fun a => a.action == k) ≠ [] := by
    intro hnil
    rw [hnil] at hmem
    exact List.not_mem_nil a hmem
  have hlen : ((st.filter (fun a => a.action == k)).length == 0) = false := by
    simp [List.length_eq_zero, hne]
  simp [removeAccessory, hlen]

theorem foldl_remove_store (keys : List String) (e : Effect) :
    (keys.foldl (fun e k => e.andThen (removeAccessory e.store k)) e).store = e.store := by
  induction keys generalizing e with
  | nil => rfl
  | cons k ks ih =>
    rw [List.foldl_cons, ih]
    simp [Effect.andThen, removeAccessory_store]

theorem foldl_remove_ops (keys : List String) (e : Effect) :
    (keys.foldl (fun e k => e.andThen (removeAccessory e.store k)) e).ops
      = e.ops ++ keys.flatMap (fun k => (removeAccessory e.store k).ops) := by
  induction keys generalizing e with
  | nil => simp
  | cons k ks ih =>
    rw [List.foldl_cons, ih]
    simp [Effect.andThen, removeAccessory_store]

theorem runRemovals_store (st : List Accessory) (keys : List String) :
    (runRemovals st keys).store = st :=
  foldl_remove_store keys { ops := [], logs := [], store := st }

theorem runRemovals_ops (st : List Accessory) (keys : List String) :
    (runRemovals st keys).ops = keys.flatMap (fun k => (removeAccessory st k).ops) := by
  simpa using foldl_remove_ops keys { ops := [], logs := [], store := st }

theorem foldl_add_ops (gen : String → String) (cfg : String) (data : Option SwitchData)
    (keys : List String) (e : Effect) :
    (keys.foldl (fun e k => e.andThen (addAccessory gen cfg e.store (jsIndex data k) k)) e).ops
      = e.ops ++ keys.map (fun k => HostOp.registerAccessories [mkAccessory gen cfg (jsIndex data k) k]) := by
  induction keys generalizing e with
  | nil => simp
  | cons k ks ih =>
    rw [List.foldl_cons, ih]
    simp [Effect.andThen, addAccessory]

theorem foldl_add_store (gen : String → String) (cfg : String) (data : Option SwitchData)
    (keys : List String) (e : Effect) :
    (keys.foldl (fun e k => e.andThen (addAccessory gen cfg e.store (jsIndex data k) k)) e).store
      = e.store ++ keys.map (fun k => mkAccessory gen cfg (jsIndex data k) k) := by
  induction keys generalizing e with
  | nil => simp
  | cons k ks ih =>
    rw [List.foldl_cons, ih]
    simp [Effect.andThen, addAccessory]

theorem runAdds_ops (gen : String → String) (cfg : String) (data : Option SwitchData)
    (st : List Accessory) (keys : List String) :
    (runAdds gen cfg data st keys).ops
      = keys.map (fun k => HostOp.registerAccessories [mkAccessory gen cfg (jsIndex data k) k]) := by
  simpa using foldl_add_ops gen cfg data keys { ops := [], logs := [], store := st }

theorem runAdds_store (gen : String → String) (cfg : String) (data : Option SwitchData)
    (st : List Accessory) (keys : List String) :
    (runAdds gen cfg data st keys).store
      = st ++ keys.map (fun k => mkAccessory gen cfg (jsIndex data k) k) := by
  simpa using foldl_add_store gen cfg data keys { ops := [], logs := [], store := st }

theorem flatMap_eq_map_of {α β : Type} (keys : List α) (f : α → List β) (g : α → β)
    (h : ∀ k ∈ keys, f k = [g k]) : keys.flatMap f = keys.map g := by
  induction keys with
  | nil => rfl
  | cons k ks ih =>
    rw [List.flatMap_cons, List.map_cons, h k (List.mem_cons_self k ks),
        ih (fun k2 hk2 => h k2 (List.mem_cons_of_mem _ hk2))]
    rfl

theorem reconcile_success_ops (gen : String → String) (cfg : String)
    (st : List Accessory) (data : Option SwitchData) :
    (reconcile gen cfg st (.success data)).ops
      = (switchesToRemove st data).map
          (fun k => HostOp.unregisterAccessories (st.filter (fun a => a.action == k)))
        ++ (switchesToAdd st data).map
          (fun k => HostOp.registerAccessories [mkAccessory gen cfg (jsIndex data k) k]) := by
  have hops : (reconcile gen cfg st (.success data)).ops
      = (runRemovals st (switchesToRemove st data)).ops
        ++ (runAdds gen cfg data (runRemovals st (switchesToRemove st data)).store
              (switchesToAdd st data)).ops := rfl
  rw [hops, runRemovals_ops, runAdds_ops]
  congr 1
  apply flatMap_eq_map_of
  intro k hk
  apply removeAccessory_ops_of_match
  have hkmem : k ∈ st.map (fun a => a.action) :=
    (mem_lodashDifference.mp hk).1
  obtain ⟨a, ha, hk2⟩ := List.mem_map.mp hkmem
  exact ⟨a, ha, hk2⟩

theorem reconcile_success_store (gen : String → String) (cfg : String)
    (st : List Accessory) (data : Option SwitchData) :
    (reconcile gen cfg st (.success data)).store
      = st ++ (switchesToAdd st data).map (fun k => mkAccessory gen cfg (jsIndex data k) k) := by
  have hst : (reconcile gen cfg st (.success data)).store
      = (runAdds gen cfg data (runRemovals st (switchesToRemove st data)).store
          (switchesToAdd st data)).store := rfl
  rw [hst, runAdds_store, runRemovals_store]

/-! ## Claim theorems -/

/-- C1: one reconciliation pass computes exactly `toAdd = R \ L` and
`toRemove = L \ R` (membership-wise), and the host-sink operations it issues
are exactly one destroy per key of `toRemove` followed by one create per key
of `toAdd` — nothing else. -/
theorem diff_and_apply_exact (gen : String → String) (cfg : String)
    (st : List Accessory) (data : Option SwitchData) :
    (∀ k, k ∈ switchesToRemove st data
            ↔ k ∈ st.map (fun a => a.action) ∧ k ∉ jsKeys data) ∧
    (∀ k, k ∈ switchesToAdd st data
            ↔ k ∈ jsKeys data ∧ k ∉ st.map (fun a => a.action)) ∧
    (reconcile gen cfg st (.success data)).ops
      = (switchesToRemove st data).map
          (fun k => HostOp.unregisterAccessories (st.filter (fun a => a.action == k)))
        ++ (switchesToAdd st data).map
          (fun k => HostOp.registerAccessories [mkAccessory gen cfg (jsIndex data k) k]) :=
  ⟨fun _ => mem_lodashDifference, fun _ => mem_lodashDifference,
   reconcile_success_ops gen cfg st data⟩

/-- C2: evaluation of the code at a failing input for the idempotence claim.
With one stored accessory for action "A" and an empty remote mapping, the
first pass unregisters it but leaves the `accessories` array unchanged
(`removeAccessory` never removes from the array), so a second pass with the
same remote result issues the same destroy again instead of zero
operations. -/
theorem second_pass_repeats_destroys :
    (reconcile demoGen demoCfg [accA] (.success (some []))).store = [accA] ∧
    (reconcile demoGen demoCfg
        (reconcile demoGen demoCfg [accA] (.success (some []))).store
        (.success (some []))).ops = [HostOp.unregisterAccessories [accA]] ∧
    (reconcile demoGen demoCfg
        (reconcile demoGen demoCfg [accA] (.success (some []))).store
        (.success (some []))).ops ≠ [] := by
  refine ⟨rfl, rfl, ?_⟩
  decide

/-- C3 counterexample: with one stored accessory and a response that has no
`data.data` object (`FetchResult.success none`), the pass does not fail —
it issues a destroy for the stored accessory, contradicting the claim that
no entity is destroyed on a malformed response. -/
theorem malformed_response_destroys :
    (reconcile demoGen demoCfg [accA] (.success none)).ops
        = [HostOp.unregisterAccessories [accA]] ∧
    (reconcile demoGen demoCfg [accA] (.success none)).ops ≠ [] := by
  refine ⟨rfl, ?_⟩
  decide

/-- C3 amended: when the response has no `data.data` object, no error is
raised; `_.keys(undefined)` is the empty list, so the pass creates nothing
and issues one destroy per stored `context.action`, while the `accessories`
array itself stays unchanged. -/
theorem malformed_response_removes_all (gen : String → String) (cfg : String)
    (st : List Accessory) :
    switchesToAdd st none = [] ∧
    switchesToRemove st none = st.map (fun a => a.action) ∧
    (reconcile gen cfg st (.success none)).ops
      = (st.map (fun a => a.action)).map
          (fun k => HostOp.unregisterAccessories (st.filter (fun a => a.action == k))) ∧
    (reconcile gen cfg st (.success none)).store = st := by
  have hadd : switchesToAdd st none = [] := rfl
  have hrem : switchesToRemove st none = st.map (fun a => a.action) :=
    lodashDifference_nil_right _
  refine ⟨hadd, hrem, ?_, ?_⟩
  · rw [reconcile_success_ops, hadd, hrem]
    simp
  · rw [reconcile_success_store, hadd]
    simp

/-- C4: if the fetch throws, the pass aborts: an error is logged, no
host-sink operation is issued, and the `accessories` array is exactly what it
was before the pass. -/
theorem fetch_failure_aborts (gen : String → String) (cfg : String)
    (st : List Accessory) :
    reconcile gen cfg st .failure
      = { ops := []
          logs := [.info "Cache restored.", .info "Loading switch data",
                   .error "Failed to access server!"]
          store := st } := rfl

/-- C5: the removal branch and the addition branch run independently: when
`toAdd` is empty the ops are exactly the destroys of `toRemove`, and when
`toRemove` is empty the ops are exactly the creates of `toAdd`. -/
theorem no_skip (gen : String → String) (cfg : String)
    (st : List Accessory) (data : Option SwitchData) :
    (switchesToAdd st data = [] →
      (reconcile gen cfg st (.success data)).ops
        = (switchesToRemove st data).map
            (fun k => HostOp.unregisterAccessories (st.filter (fun a => a.action == k)))) ∧
    (switchesToRemove st data = [] →
      (reconcile gen cfg st (.success data)).ops
        = (switchesToAdd st data).map
            (fun k => HostOp.registerAccessories [mkAccessory gen cfg (jsIndex data k) k])) := by
  constructor
  · intro h
    rw [reconcile_success_ops, h]
    simp
  · intro h
    rw [reconcile_success_ops, h]
    simp

/-- C5 witness: local keys {A, B}, remote keys {A}: exactly destroy(B) is
issued and no create. -/
theorem no_skip_witness :
    (reconcile demoGen demoCfg [accA, accB] (.success (some [("A", "Lamp")]))).ops
      = [HostOp.unregisterAccessories [accB]] := by
  have h := (no_skip demoGen demoCfg [accA, accB] (some [("A", "Lamp")])).1 (by decide)
  exact h.trans (by decide)

/-- C6: for every accessory and every invocation outcome (ok, failed,
transport error), the visible state timeline of one activation is the same
`true` at time 0 and `false` at the fixed 3000 ms reset; the handler itself
never writes the `On` value and always schedules exactly the 3000 ms
reset. -/
theorem activation_outcome_independent (acc : Accessory) (outcome : InvokeOutcome) :
    activate acc outcome = [(0, true), (3000, false)] ∧
    resetDelays (setHandler acc outcome) = [3000] ∧
    isOnWrites (setHandler acc outcome) = [] := by
  cases outcome <;> exact ⟨rfl, rfl, rfl⟩

/-- C7: evaluation of the code at a failing input for the URL-normalisation
claim. JavaScript's `trimRight` ignores its `"/"` argument and strips only
whitespace, so a configured URL with a trailing slash keeps it and the
derived invoke URL contains a doubled slash. -/
theorem trailing_slash_not_normalized :
    mkConfigURL "http://example.com/" = "http://example.com//api/v1/" ∧
    mkConfigURL "http://example.com/" ≠ "http://example.com/api/v1/" ∧
    (mkAccessory demoGen (mkConfigURL "http://example.com/") "Lamp" "a1").actionUrl
      = "http://example.com//api/v1/a1" := by
  refine ⟨rfl, ?_, rfl⟩
  decide

/-- C8: removing an action key with no matching accessory is a logged no-op:
no host-sink operation, an error log line, and an unchanged `accessories`
array. -/
theorem remove_unknown_noop (st : List Accessory) (action : String)
    (h : ∀ a ∈ st, a.action ≠ action) :
    removeAccessory st action
      = { ops := []
          logs := [.info ("Removing accessory with action " ++ action),
                   .error ("Unable to remove accessory " ++ action ++ "! Does not exist.")]
          store := st } := by
  have hf : st.filter (fun a => a.action == action) = [] := by
    rw [List.filter_eq_nil_iff]
    intro a ha
    simpa using h a ha
  simp [removeAccessory, hf]

/-- C8 witness: removing unknown key "Z" from a store holding only action "A"
is a logged no-op. -/
theorem remove_unknown_noop_witness :
    removeAccessory [accA] "Z"
      = { ops := []
          logs := [.info "Removing accessory with action Z",
                   .error "Unable to remove accessory Z! Does not exist."]
          store := [accA] } :=
  remove_unknown_noop [accA] "Z" (by decide)

/-- C9: `removeAccessory` never changes the `accessories` array, and a
reconciliation pass only ever appends to it, so every accessory present
before the pass (including those whose keys were removed) is still in the
array afterwards. -/
theorem remove_keeps_store (gen : String → String) (cfg : String)
    (st : List Accessory) (data : Option SwitchData) (k : String) :
    (removeAccessory st k).store = st ∧
    (reconcile gen cfg st (.success data)).store
      = st ++ (switchesToAdd st data).map (fun k2 => mkAccessory gen cfg (jsIndex data k2) k2) ∧
    ∀ a ∈ st, a ∈ (reconcile gen cfg st (.success data)).store := by
  refine ⟨removeAccessory_store st k, reconcile_success_store gen cfg st data, ?_⟩
  intro a ha
  rw [reconcile_success_store]
  exact List.mem_append_left _ ha

/-- C9 witness: after a pass that removes accessory `accA`, the array still
contains `accA`. -/
theorem remove_keeps_store_witness :
    accA ∈ (reconcile demoGen demoCfg [accA] (.success (some []))).store :=
  (remove_keeps_store demoGen demoCfg [accA] (some []) "A").2.2 accA (by decide)

/-- C10: a created accessory's uuid is `hap.uuid.generate(displayName)` —
it depends only on the display name, so two remote actions with distinct
action ids but equal display names yield entities with equal uuids (and
distinct `context.action` fields). -/
theorem uuid_from_display_name (gen : String → String) (cfg : String)
    (st : List Accessory) (name a₁ a₂ : String) (h : a₁ ≠ a₂) :
    (addAccessory gen cfg st name a₁).ops
        = [HostOp.registerAccessories [mkAccessory gen cfg name a₁]] ∧
    (mkAccessory gen cfg name a₁).uuid = gen name ∧
    (mkAccessory gen cfg name a₁).uuid = (mkAccessory gen cfg name a₂).uuid ∧
    (mkAccessory gen cfg name a₁).action ≠ (mkAccessory gen cfg name a₂).action :=
  ⟨rfl, rfl, rfl, by simpa [mkAccessory] using h⟩

/-- C10 witness: actions "a1" and "a2" with the shared display name "Lamp"
produce the same uuid. -/
theorem uuid_from_display_name_witness :
    (mkAccessory demoGen demoCfg "Lamp" "a1").uuid
      = (mkAccessory demoGen demoCfg "Lamp" "a2").uuid :=
  (uuid_from_display_name demoGen demoCfg [] "Lamp" "a1" "a2" (by decide)).2.2.1

end WebRF
